import Mathlib

/-
  Shallow embedding of the status-tracker progress-aggregation core
  (src/main.py and src/worker.py) and proofs about it.

  Conventions of the embedding:
  - SQL rows become Lean structures; the Task aggregate holds its phases
    inline and each phase holds its todos inline, mirroring the ORM
    relationship graph.
  - Python ints become Int / Nat; Python floats become Rat (the progress
    arithmetic of the source only ever divides and multiplies small
    integers, and the round() tie behaviour is modelled by pyRound,
    round-half-to-even, matching Python round on exact values).
  - Timestamps are modelled as Rat minutes on one global clock.
  - Fallible endpoint handlers return Option (none = HTTP 404 NotFound).
  - Audit comment rows are not modelled; the aggregator records whether a
    comment-emitting status persist happened in the AggResult.changed flag.
-/

namespace StatusTracker

/-- Todo row of src/main.py (class Todo): leaf checklist item. -/
structure Todo where
  id : Nat
  phase_id : Nat
  name : String
  status : String := "todo"
  deriving DecidableEq

/-- Phase row of src/main.py (class Phase), with its todos inlined. -/
structure Phase where
  id : Nat
  task_id : Nat
  name : String
  status : String := "not_started"
  order : Nat := 0
  todos : List Todo := []
  deriving DecidableEq

/-- Task row of src/main.py (class Task), with its phases inlined.
Only the fields the aggregation core and the worker read or write are kept. -/
structure Task where
  id : Nat
  name : String
  priority : String := "medium"
  progress_percent : Int := 0
  status : String := "todo"
  last_ping : Rat := 0
  interval_minutes : Option Rat := some 60
  phases : List Phase := []
  deriving DecidableEq

/-- Count of todos whose status is the string done, as in the generator
expressions sum(1 for t in todos if t.status == "done") of src/main.py. -/
def doneCount (todos : List Todo) : Nat :=
  todos.countP (fun t => t.status == "done")

/-- Count of todos whose status is the string in_progress
(update_phase_status_from_todos, src/main.py line 344). -/
def inProgressCount (todos : List Todo) : Nat :=
  todos.countP (fun t => t.status == "in_progress")

/-- Python round() on an exact rational: round half to even. -/
def pyRound (q : Rat) : Int :=
  let n := ⌊q⌋
  let frac := q - n
  if frac < 1 / 2 then n
  else if 1 / 2 < frac then n + 1
  else if n % 2 = 0 then n else n + 1

/-- Contribution of one phase inside the loop of calculate_task_progress
(src/main.py lines 291-304), translated branch for branch. -/
def phaseContribution (phase_weight : Rat) (phase : Phase) : Rat :=
  if phase.status = "completed" then phase_weight
  else if phase.status = "in_progress" then
    if phase.todos = [] then 0
    else phase_weight * ((doneCount phase.todos : Rat) / (phase.todos.length : Rat))
  else if phase.status = "not_started" then
    if phase.todos = [] then 0
    else if 0 < doneCount phase.todos then
      phase_weight * ((doneCount phase.todos : Rat) / (phase.todos.length : Rat))
    else 0
  else 0

/-- calculate_task_progress (src/main.py lines 279-306): equal phase
weights 100 / n, accumulated over the phases, then Python round(). -/
def calculate_task_progress (task : Task) : Int :=
  if task.phases = [] then 0
  else
    let phase_weight : Rat := 100 / (task.phases.length : Rat)
    pyRound (task.phases.foldl (fun acc p => acc + phaseContribution phase_weight p) 0)

/-- recalculate_task_progress (src/main.py lines 309-324): store the
recomputed percent and sync the legacy status label from it. -/
def recalculate_task_progress (task : Task) : Task :=
  let pct := calculate_task_progress task
  { task with
    progress_percent := pct
    status := if 100 ≤ pct then "done" else if 0 < pct then "in_progress" else "todo" }

/-- Outcome of one run of the phase aggregator on a phase row:
the resulting phase row, whether a new status was persisted (which in the
source also emits an audit comment), and whether the run reached the final
recalculate_task_progress call for the owning task. -/
structure AggResult where
  phase : Phase
  changed : Bool
  recomputed : Bool
  deriving DecidableEq

/-- update_phase_status_from_todos (src/main.py lines 336-364), phase-local
part. The early return for a missing phase or an empty todo list skips
everything, including the trailing recalculate_task_progress call. -/
def update_phase_status_from_todos (phase : Phase) : AggResult :=
  if phase.todos = [] then { phase := phase, changed := false, recomputed := false }
  else
    let todos := phase.todos
    let done_count := doneCount todos
    let in_progress_count := inProgressCount todos
    let new_status :=
      if done_count = todos.length then "completed"
      else if 0 < done_count ∨ 0 < in_progress_count then "in_progress"
      else "not_started"
    if phase.status ≠ new_status ∧ phase.status ≠ "blocked" then
      { phase := { phase with status := new_status }, changed := true, recomputed := true }
    else { phase := phase, changed := false, recomputed := true }

/-- update_todos_when_phase_completed (src/main.py lines 367-378): mark all
todos of the phase done. -/
def update_todos_when_phase_completed (phase : Phase) : Phase :=
  { phase with
    todos := phase.todos.map (fun td =>
      if td.status ≠ "done" then { td with status := "done" } else td) }

/-- session.get(Phase, phase_id) within the modelled task. -/
def findPhaseIn (task : Task) (pid : Nat) : Option Phase :=
  task.phases.find? (fun p => p.id == pid)

/-- All todo rows owned (transitively) by the task. -/
def allTodos (task : Task) : List Todo :=
  task.phases.flatMap Phase.todos

/-- session.get(Todo, todo_id) within the modelled task. -/
def findTodoIn (task : Task) (tid : Nat) : Option Todo :=
  (allTodos task).find? (fun td => td.id == tid)

/-- UPDATE todos SET status = s WHERE id = tid, inside the task tree. -/
def setTodoStatusEverywhere (task : Task) (tid : Nat) (s : String) : Task :=
  { task with
    phases := task.phases.map (fun p =>
      { p with
        todos := p.todos.map (fun td =>
          if td.id == tid then { td with status := s } else td) }) }

/-- UPDATE phases SET status = s WHERE id = pid, inside the task tree. -/
def setPhaseStatus (task : Task) (pid : Nat) (s : String) : Task :=
  { task with
    phases := task.phases.map (fun p =>
      if p.id == pid then { p with status := s } else p) }

/-- Apply update_todos_when_phase_completed to the phase with id pid. -/
def cascadeTodosOfPhase (task : Task) (pid : Nat) : Task :=
  { task with
    phases := task.phases.map (fun p =>
      if p.id == pid then update_todos_when_phase_completed p else p) }

/-- Task-level effect of calling update_phase_status_from_todos(pid):
persist the status the aggregator produced for that phase row, then run
recalculate_task_progress for the owning task exactly when the aggregator
reached that call (src/main.py lines 336-364). -/
def applyAggregator (task : Task) (pid : Nat) : Task :=
  match findPhaseIn task pid with
  | none => task
  | some p =>
    let r := update_phase_status_from_todos p
    let task1 :=
      if r.changed then
        { task with
          phases := task.phases.map (fun q =>
            if q.id == pid then { q with status := r.phase.status } else q) }
      else task
    if r.recomputed then recalculate_task_progress task1 else task1

/-- PATCH /todos/(todo_id) (update_todo, src/main.py lines 673-700): set
the todo status verbatim, then propagate through the phase aggregator.
none models the 404 NotFound response. -/
def update_todo (task : Task) (tid : Nat) (s : String) : Option Task :=
  match findTodoIn task tid with
  | none => none
  | some td => some (applyAggregator (setTodoStatusEverywhere task tid s) td.phase_id)

/-- PATCH /phases/(phase_id) (update_phase, src/main.py lines 703-731): set
the phase status verbatim, cascade todos to done when the new status is
completed, then recalculate task progress. none models 404 NotFound. -/
def update_phase (task : Task) (pid : Nat) (s : String) : Option Task :=
  match findPhaseIn task pid with
  | none => none
  | some _ =>
    let task1 := setPhaseStatus task pid s
    let task2 := if s = "completed" then cascadeTodosOfPhase task1 pid else task1
    some (recalculate_task_progress task2)

/-- PATCH /tasks/(task_id) (update_task, src/main.py lines 533-553): if a
status string was passed and it is truthy (Python: nonempty), overwrite the
stored task status and touch last_ping. Nothing else happens: no completion
guard, no cascade, no recalculation. -/
def update_task (task : Task) (status : Option String) (now : Rat) : Task :=
  match status with
  | none => task
  | some s => if s = "" then task else { task with status := s, last_ping := now }

/-- One element of the reports list of POST /tasks/(task_id)/batch-report.
Each key of the Python dict that the handler inspects becomes an optional
field; a single report can trigger several of the four branches. -/
structure Report where
  comment : Option String := none
  author : Option String := none
  todo_id : Option Nat := none
  phase_id : Option Nat := none
  status : Option String := none
  task_status : Option String := none
  deriving DecidableEq

/-- Body of the per-report loop of batch_report (src/main.py lines 608-666).
Comment rows are not modelled. The todo branch sets the todo status and
runs the phase aggregator (which recalculates mid-batch); the phase branch
sets the phase status and cascades todos when completed, with no
recalculation; the task branch overwrites the task status, touches
last_ping and, when the new status is done, forces every non-completed
phase to completed with all its todos done. -/
def applyReport (now : Rat) (task : Task) (rep : Report) : Task :=
  let taskA :=
    match rep.todo_id, rep.status with
    | some tid, some s =>
      match findTodoIn task tid with
      | none => task
      | some td => applyAggregator (setTodoStatusEverywhere task tid s) td.phase_id
    | _, _ => task
  let taskB :=
    match rep.phase_id, rep.status with
    | some pid, some s =>
      match findPhaseIn taskA pid with
      | none => taskA
      | some _ =>
        let t1 := setPhaseStatus taskA pid s
        if s = "completed" then cascadeTodosOfPhase t1 pid else t1
    | _, _ => taskA
  match rep.task_status with
  | none => taskB
  | some s =>
    let t1 := { taskB with status := s, last_ping := now }
    if s = "done" then
      { t1 with
        phases := t1.phases.map (fun p =>
          if p.status ≠ "completed" then
            update_todos_when_phase_completed { p with status := "completed" }
          else p) }
    else t1

/-- POST /tasks/(task_id)/batch-report (batch_report, src/main.py lines
596-670): apply the reports in order, then one trailing
recalculate_task_progress. -/
def batch_report (now : Rat) (task : Task) (reports : List Report) : Task :=
  recalculate_task_progress (reports.foldl (applyReport now) task)

/-- TodoCreate request schema (src/main.py lines 119-126). -/
structure TodoCreate where
  name : String
  status : String := "todo"
  deriving DecidableEq

/-- PhaseCreate request schema (src/main.py lines 143-151). -/
structure PhaseCreate where
  name : String
  status : String := "not_started"
  order : Nat := 0
  todos : List TodoCreate := []
  deriving DecidableEq

/-- TaskCreate request schema (src/main.py lines 188-202). -/
structure TaskCreate where
  name : String
  priority : String := "medium"
  interval_minutes : Option Rat := some 60
  phases : List PhaseCreate := []
  deriving DecidableEq

/-- Insert the todo rows of one created phase, assigning fresh ids. -/
def createTodos (pid : Nat) : Nat → List TodoCreate → List Todo
  | _, [] => []
  | j, tc :: rest =>
    { id := pid * 1000 + j, phase_id := pid, name := tc.name, status := tc.status }
      :: createTodos pid (j + 1) rest

/-- Insert one phase row with its todos, then run the phase aggregator on
it, as create_task does after each phase (src/main.py line 487). -/
def createPhase (tid pid : Nat) (pc : PhaseCreate) : Phase :=
  let p : Phase :=
    { id := pid
      task_id := tid
      name := pc.name
      status := pc.status
      order := pc.order
      todos := createTodos pid 1 pc.todos }
  (update_phase_status_from_todos p).phase

/-- Insert the phase rows of a created task in order. -/
def createPhases (tid : Nat) : Nat → List PhaseCreate → List Phase
  | _, [] => []
  | pid, pc :: rest => createPhase tid pid pc :: createPhases tid (pid + 1) rest

/-- POST /tasks/ (create_task, src/main.py lines 439-493): persist the task
with its nested phases and todos exactly as submitted - there is no
structural validation - then recalculate progress. The recalculation calls
made while phases are being attached only write the two derived fields, so
the final trailing recalculation determines the persisted state. -/
def create_task (tc : TaskCreate) : Task :=
  recalculate_task_progress
    { id := 1
      name := tc.name
      priority := tc.priority
      progress_percent := 0
      status := "todo"
      last_ping := 0
      interval_minutes := tc.interval_minutes
      phases := createPhases 1 1 tc.phases }

/-- Python expression task.interval_minutes or 60 used by the worker
(src/worker.py line 28): None and the falsy 0.0 both fall back to 60. -/
def effInterval : Option Rat → Rat
  | none => 60
  | some v => if v = 0 then 60 else v

/-- Loop body of check_and_notify_tasks (src/worker.py lines 14-39) for one
task already selected by the status filter of the query: the Bool records
whether a reminder notification was sent. Tasks whose status is not
in_progress are returned untouched by the surrounding SELECT. -/
def checkTaskNotify (now : Rat) (t : Task) : Task × Bool :=
  if t.status = "in_progress" then
    if t.last_ping + effInterval t.interval_minutes < now then
      ({ t with last_ping := now }, true)
    else (t, false)
  else (t, false)

/-- check_and_notify_tasks (src/worker.py lines 14-39) over the full task
table at one instant. -/
def check_and_notify_tasks (now : Rat) (tasks : List Task) : List (Task × Bool) :=
  tasks.map (checkTaskNotify now)

/-- Phase contribution as worded by the specification (claim C6): equal
weight to each phase; completed earns the full weight; blocked earns zero;
in_progress or not_started with todos earns weight times the done ratio;
a phase with no todos that is not completed earns zero. -/
def specPhaseContribution (w : Rat) (p : Phase) : Rat :=
  if p.status = "completed" then w
  else if p.status = "blocked" then 0
  else if (p.status = "in_progress" ∨ p.status = "not_started") ∧ p.todos ≠ [] then
    w * ((doneCount p.todos : Rat) / (p.todos.length : Rat))
  else 0

/-- Task progress as worded by the specification (claim C6): zero phases
give percent 0, otherwise sum the per-phase contributions at weight
100 / phase_count and round to the nearest integer. -/
def specTaskProgress (task : Task) : Int :=
  if task.phases = [] then 0
  else
    pyRound ((task.phases.map
      (specPhaseContribution (100 / (task.phases.length : Rat)))).sum)

/-- Selection predicate as worded by claim C9: status in_progress and
now past last_ping plus interval_minutes, the interval defaulting to 60
exactly when it is null. -/
def specNotifierSelects (now : Rat) (t : Task) : Prop :=
  t.status = "in_progress" ∧ t.last_ping + t.interval_minutes.getD 60 < now

/-- Fixture: an in_progress task holding one in_progress phase with one
done and one open todo; the stored derived fields agree with recomputation
(progress 50, status in_progress). -/
def exMixed : Task :=
  { id := 7
    name := "Mixed"
    progress_percent := 50
    status := "in_progress"
    last_ping := 0
    phases := [
      { id := 1
        task_id := 7
        name := "Phase 1"
        status := "in_progress"
        todos := [
          { id := 1, phase_id := 1, name := "a", status := "done" },
          { id := 2, phase_id := 1, name := "b", status := "todo" } ] } ] }

/-- Fixture: a manually blocked phase with a mixed todo list. -/
def blockedPhase : Phase :=
  { id := 3
    task_id := 7
    name := "Pinned"
    status := "blocked"
    todos := [
      { id := 5, phase_id := 3, name := "x", status := "done" },
      { id := 6, phase_id := 3, name := "y", status := "in_progress" } ] }

/-- Fixture: a completed phase whose derived status equals its stored
status, so an aggregator run persists nothing. -/
def completedDonePhase : Phase :=
  { id := 4
    task_id := 7
    name := "Settled"
    status := "completed"
    todos := [ { id := 8, phase_id := 4, name := "z", status := "done" } ] }

/-- Fixture: an existing phase whose todo list is empty. -/
def emptyTodosPhase : Phase :=
  { id := 9
    task_id := 7
    name := "Hollow"
    status := "in_progress"
    todos := [] }

/-- Fixture: a task whose every todo is done but whose single phase is
pinned blocked. -/
def blockedAllDoneTask : Task :=
  { id := 11
    name := "Pinned task"
    status := "in_progress"
    phases := [
      { id := 1
        task_id := 11
        name := "Only"
        status := "blocked"
        todos := [ { id := 1, phase_id := 1, name := "t", status := "done" } ] } ] }

/-- Fixture: a two-phase task in the status vocabulary with every todo
done. -/
def allDoneTask : Task :=
  { id := 12
    name := "Finished"
    status := "in_progress"
    phases := [
      { id := 1
        task_id := 12
        name := "First"
        status := "completed"
        todos := [ { id := 1, phase_id := 1, name := "t1", status := "done" } ] },
      { id := 2
        task_id := 12
        name := "Second"
        status := "in_progress"
        todos := [
          { id := 2, phase_id := 2, name := "t2", status := "done" },
          { id := 3, phase_id := 2, name := "t3", status := "done" } ] } ] }

/-- Fixture: an in_progress task with the default 60 minute interval whose
last ping was at minute 0. -/
def notifTask : Task :=
  { id := 13
    name := "Stale"
    status := "in_progress"
    last_ping := 0
    interval_minutes := some 60 }

/-- Fixture: an in_progress task whose reminder interval is stored as 0. -/
def zeroIntervalTask : Task :=
  { id := 14
    name := "Zero interval"
    status := "in_progress"
    last_ping := 0
    interval_minutes := some 0 }

/-- Fixture: a task used to exercise the unvalidated status writes. -/
def vocabTask : Task :=
  { id := 15
    name := "Vocab"
    status := "todo"
    phases := [
      { id := 1
        task_id := 15
        name := "P"
        status := "not_started"
        todos := [ { id := 1, phase_id := 1, name := "t", status := "todo" } ] } ] }

/-- Fixture: a phase carrying a status string outside the documented
vocabulary, with a done todo. -/
def weirdPhase : Phase :=
  { id := 21
    task_id := 15
    name := "Odd"
    status := "paused"
    todos := [ { id := 9, phase_id := 21, name := "t", status := "done" } ] }

theorem pyRound_intCast (n : Int) : pyRound ((n : Rat)) = n := by
  simp [pyRound]

theorem pyRound_eq_intCast (q : Rat) (n : Int) (h : q = (n : Rat)) : pyRound q = n := by
  rw [h, pyRound_intCast]

theorem foldl_add_eq_sum (f : Phase → Rat) (l : List Phase) (a : Rat) :
    l.foldl (fun acc p => acc + f p) a = a + (l.map f).sum := by
  induction l generalizing a with
  | nil => simp
  | cons p rest ih => simp [ih, add_assoc]

/-- Claim C1 (code_bug evidence): update_task applies a requested
transition of a task with open checklist items into status done without
any completion guard: the handler returns the task with the new status
stored and last_ping touched, and nothing is blocked. -/
theorem update_task_done_not_blocked :
    update_task exMixed (some "done") 5 = { exMixed with status := "done", last_ping := 5 } ∧
    (update_task exMixed (some "done") 5).status = "done" ∧
    exMixed.status = "in_progress" ∧
    (∃ p ∈ exMixed.phases, ∃ td ∈ p.todos, td.status ≠ "done") :=
  ⟨rfl, rfl, rfl, by decide⟩

/-- Claim C2 (code_bug evidence): the same direct overwrite to done leaves
every phase and todo untouched and does not recompute progress: no cascade
fires in update_task. -/
theorem update_task_done_no_cascade :
    (update_task exMixed (some "done") 5).phases = exMixed.phases ∧
    (update_task exMixed (some "done") 5).progress_percent = 50 ∧
    (∃ p ∈ (update_task exMixed (some "done") 5).phases, p.status ≠ "completed") ∧
    (∃ p ∈ (update_task exMixed (some "done") 5).phases, ∃ td ∈ p.todos, td.status ≠ "done") :=
  ⟨rfl, rfl, by decide, by decide⟩

/-- Claim C3 (code_bug evidence): after update_task stores status done the
legacy status field diverges from what recalculate_task_progress would
produce from the phases, so the consistency invariant is broken by this
operation. -/
theorem update_task_breaks_consistency :
    (update_task exMixed (some "done") 5).status = "done" ∧
    (recalculate_task_progress (update_task exMixed (some "done") 5)).status = "in_progress" ∧
    (recalculate_task_progress (update_task exMixed (some "done") 5)).status ≠
      (update_task exMixed (some "done") 5).status := by
  have hcalc : calculate_task_progress (update_task exMixed (some "done") 5) = 50 := by
    simp only [calculate_task_progress, update_task, exMixed]
    simp [phaseContribution, doneCount]
    exact pyRound_eq_intCast _ 50 (by simp [phaseContribution, doneCount]; norm_num)
  have h1 : (update_task exMixed (some "done") 5).status = "done" := rfl
  have h2 : (recalculate_task_progress (update_task exMixed (some "done") 5)).status =
      "in_progress" := by
    simp [recalculate_task_progress, hcalc]
  exact ⟨h1, h2, by rw [h2, h1]; decide⟩

/-- Claim C4: the phase aggregator never overwrites a phase whose stored
status is blocked, whatever its todos hold. -/
theorem blocked_phase_is_sticky (p : Phase) (hb : p.status = "blocked") :
    (update_phase_status_from_todos p).phase = p := by
  by_cases h : p.todos = []
  · simp [update_phase_status_from_todos, h]
  · simp [update_phase_status_from_todos, h, hb]

/-- Witness for claim C4 at a concrete blocked phase with mixed todos. -/
theorem blocked_phase_is_sticky_witness :
    (update_phase_status_from_todos blockedPhase).phase = blockedPhase :=
  blocked_phase_is_sticky blockedPhase (by decide)

/-- Claim C7 (code_bug evidence): create_task persists a task built from a
request with zero phases, and one built from a request whose only phase has
zero todos, with no validation error in either case. -/
theorem create_task_accepts_empty :
    (create_task { name := "X" }).phases = [] ∧
    (create_task { name := "X" }).name = "X" ∧
    (create_task { name := "X" }).status = "todo" ∧
    (create_task { name := "Y", phases := [ { name := "P" } ] }).phases.length = 1 ∧
    (create_task { name := "Y", phases := [ { name := "P" } ] }).phases.map Phase.todos = [[]] :=
  ⟨rfl, rfl, rfl, rfl, rfl⟩

/-- Claim C8 counterexample: invoking the aggregator on an existing phase
whose todo list is empty returns before the trailing recalculation, so the
task progress calculator is not triggered. -/
theorem empty_phase_skips_recompute :
    emptyTodosPhase.todos = [] ∧
    (update_phase_status_from_todos emptyTodosPhase).recomputed = false := by decide

/-- Claim C8 as amended: on any phase with at least one todo the aggregator
always reaches the trailing task progress recalculation, also when the
derived status equals the stored one. -/
theorem aggregator_recomputes_of_todos (p : Phase) (h : p.todos ≠ []) :
    (update_phase_status_from_todos p).recomputed = true := by
  simp only [update_phase_status_from_todos, if_neg h, apply_ite AggResult.recomputed,
    ite_self]

/-- Witness for amended claim C8 at a phase whose stored status already
equals the derived one, so nothing is persisted yet recomputation runs. -/
theorem aggregator_recomputes_of_todos_witness :
    (update_phase_status_from_todos completedDonePhase).recomputed = true ∧
    (update_phase_status_from_todos completedDonePhase).changed = false :=
  ⟨aggregator_recomputes_of_todos completedDonePhase (by decide), by decide⟩

theorem sum_map_const_eq (l : List Phase) (c : Rat) :
    (l.map (fun _ => c)).sum = l.length * c := by
  induction l with
  | nil => simp
  | cons p rest ih => simp [ih]; ring

theorem phaseContribution_eq_spec (w : Rat) (p : Phase) :
    phaseContribution w p = specPhaseContribution w p := by
  by_cases hc : p.status = "completed"
  · simp [phaseContribution, specPhaseContribution, hc]
  · by_cases hip : p.status = "in_progress"
    · by_cases he : p.todos = [] <;>
        simp [phaseContribution, specPhaseContribution, hc, hip, he]
    · by_cases hns : p.status = "not_started"
      · by_cases he : p.todos = []
        · simp [phaseContribution, specPhaseContribution, hc, hip, hns, he]
        · by_cases hd : 0 < doneCount p.todos
          · simp [phaseContribution, specPhaseContribution, hc, hip, hns, he, hd]
          · have h0 : doneCount p.todos = 0 := by omega
            simp [phaseContribution, specPhaseContribution, hc, hip, hns, he, hd, h0]
      · by_cases hb : p.status = "blocked" <;>
          simp [phaseContribution, specPhaseContribution, hc, hip, hns, hb]

/-- Claim C6: the progress calculation of the source agrees, on every task,
with the aggregation rule as the specification words it: equal weights
100 / phase_count, full weight for completed, zero for blocked, the done
ratio for in_progress or not_started phases with todos, zero for uncompleted
phases without todos, zero phases give 0, and the sum is rounded to the
nearest integer. -/
theorem calc_progress_matches_spec (task : Task) :
    calculate_task_progress task = specTaskProgress task := by
  by_cases h : task.phases = []
  · simp [calculate_task_progress, specTaskProgress, h]
  · simp only [calculate_task_progress, specTaskProgress, if_neg h]
    rw [foldl_add_eq_sum, zero_add]
    have hfun : phaseContribution (100 / (task.phases.length : Rat)) =
        specPhaseContribution (100 / (task.phases.length : Rat)) :=
      funext (fun p => phaseContribution_eq_spec _ p)
    rw [hfun]

/-- Claim C5 counterexample: a task whose every todo is done but whose
single phase is pinned blocked recomputes to progress 0 and legacy status
todo, not to 100 and done. -/
theorem all_done_blocked_not_full :
    (∀ p ∈ blockedAllDoneTask.phases, ∀ td ∈ p.todos, td.status = "done") ∧
    blockedAllDoneTask.phases ≠ [] ∧
    calculate_task_progress blockedAllDoneTask = 0 ∧
    (recalculate_task_progress blockedAllDoneTask).status = "todo" ∧
    calculate_task_progress blockedAllDoneTask ≠ 100 := by
  have hcalc : calculate_task_progress blockedAllDoneTask = 0 := by
    simp only [calculate_task_progress, blockedAllDoneTask]
    simp [phaseContribution, doneCount]
    exact pyRound_eq_intCast _ 0 (by norm_num)
  refine ⟨by decide, by decide, hcalc, ?_, by rw [hcalc]; decide⟩
  simp [recalculate_task_progress, hcalc]

/-- Claim C5 as amended: on a task with at least one phase, in which every
phase either is completed or carries status in_progress or not_started with
at least one todo, and in which every todo is done, recomputation yields
progress 100 and legacy status done. -/
theorem all_done_vocab_phases_full (task : Task)
    (hne : task.phases ≠ [])
    (hall : ∀ p ∈ task.phases, ∀ td ∈ p.todos, td.status = "done")
    (hok : ∀ p ∈ task.phases, p.status = "completed" ∨
      ((p.status = "in_progress" ∨ p.status = "not_started") ∧ p.todos ≠ [])) :
    calculate_task_progress task = 100 ∧
    (recalculate_task_progress task).progress_percent = 100 ∧
    (recalculate_task_progress task).status = "done" := by
  have hw : (task.phases.length : Rat) ≠ 0 := by
    have : task.phases.length ≠ 0 := by
      simpa [List.length_eq_zero] using hne
    exact_mod_cast this
  have hcontrib : ∀ p ∈ task.phases,
      phaseContribution (100 / (task.phases.length : Rat)) p =
        (fun _ : Phase => 100 / (task.phases.length : Rat)) p := by
    intro p hp
    rcases hok p hp with hc | ⟨hst, hne'⟩
    · simp [phaseContribution, hc]
    · have hdone : doneCount p.todos = p.todos.length := by
        apply List.countP_eq_length.mpr
        intro td htd
        simp [hall p hp td htd]
      have hlenq : (p.todos.length : Rat) ≠ 0 := by
        have : p.todos.length ≠ 0 := by
          simpa [List.length_eq_zero] using hne'
        exact_mod_cast this
      have hpos : 0 < doneCount p.todos := by
        rw [hdone]
        exact List.length_pos.mpr hne'
      rcases hst with hip | hns
      · simp [phaseContribution, hip, hne', hdone, div_self hlenq]
      · have hnotip : p.status ≠ "in_progress" := by simp [hns]
        have hnotc : p.status ≠ "completed" := by simp [hns]
        simp [phaseContribution, hnotc, hnotip, hns, hne', hdone, hpos, div_self hlenq]
  have hsum :
      (task.phases.map (fun p => phaseContribution (100 / (task.phases.length : Rat)) p)).sum
        = 100 := by
    rw [List.map_congr_left hcontrib, sum_map_const_eq, mul_comm,
      div_mul_cancel₀ _ hw]
  have hcalc : calculate_task_progress task = 100 := by
    simp only [calculate_task_progress, if_neg hne]
    rw [foldl_add_eq_sum, zero_add, hsum]
    exact pyRound_eq_intCast _ 100 (by norm_num)
  refine ⟨hcalc, ?_, ?_⟩ <;> simp [recalculate_task_progress, hcalc]

/-- Witness for amended claim C5 at a concrete two-phase task with every
todo done. -/
theorem all_done_vocab_phases_full_witness :
    calculate_task_progress allDoneTask = 100 ∧
    (recalculate_task_progress allDoneTask).progress_percent = 100 ∧
    (recalculate_task_progress allDoneTask).status = "done" :=
  all_done_vocab_phases_full allDoneTask (by decide) (by decide) (by decide)

/-- Claim C9 counterexample: a stored interval of 0 minutes is treated by
the worker like a null interval (Python or-default), so a task the
specified selection rule picks at minute 30 is not selected by the code:
no reminder is sent and last_ping stays untouched. -/
theorem zero_interval_not_selected :
    specNotifierSelects 30 zeroIntervalTask ∧
    (checkTaskNotify 30 zeroIntervalTask).2 = false ∧
    (checkTaskNotify 30 zeroIntervalTask).1 = zeroIntervalTask := by
  refine ⟨⟨rfl, by norm_num [zeroIntervalTask]⟩, ?_, ?_⟩ <;>
    norm_num [checkTaskNotify, zeroIntervalTask, effInterval]

/-- Claim C9 as amended: the worker sends a reminder exactly for tasks with
status in_progress whose last_ping plus effective interval (the stored
interval, with null and 0 both falling back to 60) lies before now; on a
reminder it resets last_ping to now and changes nothing else; otherwise it
leaves the task untouched; and after a reset no further reminder fires at
any second check up to one effective interval later. -/
theorem notifier_check_correct (t : Task) (now : Rat) :
    ((checkTaskNotify now t).2 = true ↔
      (t.status = "in_progress" ∧ t.last_ping + effInterval t.interval_minutes < now)) ∧
    ((checkTaskNotify now t).2 = true →
      (checkTaskNotify now t).1 = { t with last_ping := now }) ∧
    ((checkTaskNotify now t).2 = false → (checkTaskNotify now t).1 = t) ∧
    (∀ now2 : Rat, now2 ≤ now + effInterval t.interval_minutes →
      (checkTaskNotify now2 { t with last_ping := now }).2 = false) := by
  have hc4 : ∀ now2 : Rat, now2 ≤ now + effInterval t.interval_minutes →
      (checkTaskNotify now2 { t with last_ping := now }).2 = false := by
    intro now2 h2
    by_cases hs : t.status = "in_progress"
    · simp [checkTaskNotify, hs, not_lt.mpr h2]
    · simp [checkTaskNotify, hs]
  by_cases hs : t.status = "in_progress"
  · by_cases hd : t.last_ping + effInterval t.interval_minutes < now
    · exact ⟨by simp [checkTaskNotify, hs, hd], by simp [checkTaskNotify, hs, hd],
        by simp [checkTaskNotify, hs, hd], hc4⟩
    · exact ⟨by simp [checkTaskNotify, hs, hd], by simp [checkTaskNotify, hs, hd],
        by simp [checkTaskNotify, hs, hd], hc4⟩
  · exact ⟨by simp [checkTaskNotify, hs], by simp [checkTaskNotify, hs],
      by simp [checkTaskNotify, hs], hc4⟩

/-- Witness for amended claim C9: a stale in_progress task with the default
interval is selected at minute 61, gets its ping reset, and is not selected
again at minute 100. -/
theorem notifier_check_correct_witness :
    (checkTaskNotify 61 notifTask).1 = { notifTask with last_ping := 61 } ∧
    (checkTaskNotify 100 { notifTask with last_ping := 61 }).2 = false := by
  have h := notifier_check_correct notifTask 61
  refine ⟨h.2.1 ?_, h.2.2.2 100 ?_⟩
  · exact h.1.mpr ⟨rfl, by norm_num [notifTask, effInterval]⟩
  · norm_num [notifTask, effInterval]

theorem flatMap_todos_map (l : List Phase) (g : Phase → Phase)
    (hg : ∀ q, (g q).todos = q.todos) :
    (l.map g).flatMap Phase.todos = l.flatMap Phase.todos := by
  induction l with
  | nil => rfl
  | cons q rest ih => simp only [List.map_cons, List.flatMap_cons, hg q, ih]

theorem recalculate_phases (t : Task) :
    (recalculate_task_progress t).phases = t.phases := rfl

theorem allTodos_recalculate (t : Task) :
    allTodos (recalculate_task_progress t) = allTodos t := rfl

theorem allTodos_phases_map (t : Task) (g : Phase → Phase)
    (hg : ∀ q, (g q).todos = q.todos) :
    allTodos { t with phases := t.phases.map g } = allTodos t := by
  simp only [allTodos]
  exact flatMap_todos_map t.phases g hg

theorem allTodos_applyAggregator (t : Task) (pid : Nat) :
    allTodos (applyAggregator t pid) = allTodos t := by
  cases hf : findPhaseIn t pid with
  | none => simp only [applyAggregator, hf]
  | some p =>
    simp only [applyAggregator, hf]
    have hone : allTodos (if (update_phase_status_from_todos p).changed then
        { t with phases := t.phases.map (fun q =>
          if q.id == pid then
            { q with status := (update_phase_status_from_todos p).phase.status }
          else q) }
      else t) = allTodos t := by
      split
      · exact allTodos_phases_map t _ (fun q => by by_cases h : q.id == pid <;> simp [h])
      · rfl
    split
    · rw [allTodos_recalculate, hone]
    · exact hone

theorem setTodoStatus_forces (task : Task) (tid : Nat) (s : String) :
    ∀ td ∈ allTodos (setTodoStatusEverywhere task tid s), td.id = tid → td.status = s := by
  intro td htd hid
  simp only [allTodos, setTodoStatusEverywhere, List.mem_flatMap, List.mem_map] at htd
  obtain ⟨p, ⟨p0, hp0, rfl⟩, htdp⟩ := htd
  simp only [List.mem_map] at htdp
  obtain ⟨td0, htd0, rfl⟩ := htdp
  by_cases h : td0.id == tid
  · simp [h]
  · rw [if_neg h] at hid ⊢
    exact absurd hid (by simpa using h)

theorem setPhaseStatus_forces (task : Task) (pid : Nat) (s : String) :
    ∀ q ∈ (setPhaseStatus task pid s).phases, q.id = pid → q.status = s := by
  intro q hq hid
  simp only [setPhaseStatus, List.mem_map] at hq
  obtain ⟨q0, hq0, rfl⟩ := hq
  by_cases h : q0.id == pid
  · simp [h]
  · rw [if_neg h] at hid ⊢
    exact absurd hid (by simpa using h)

theorem cascade_preserves_status (task : Task) (pid : Nat) :
    ∀ q ∈ (cascadeTodosOfPhase task pid).phases,
      ∃ q0 ∈ task.phases, q.id = q0.id ∧ q.status = q0.status := by
  intro q hq
  simp only [cascadeTodosOfPhase, List.mem_map] at hq
  obtain ⟨q0, hq0, rfl⟩ := hq
  refine ⟨q0, hq0, ?_, ?_⟩ <;>
    by_cases h : q0.id == pid <;> simp [h, update_todos_when_phase_completed]

/-- Claim C10: any status string, also one outside the documented
vocabularies, is accepted by the todo and phase update handlers without a
validation error and stored verbatim, and a phase whose status is neither
completed nor in_progress nor not_started contributes zero to task
progress. -/
theorem status_not_validated (task : Task) (tid pid : Nat) (s : String)
    (w : Rat) (p : Phase)
    (ht : (findTodoIn task tid).isSome)
    (hp : (findPhaseIn task pid).isSome)
    (h1 : p.status ≠ "completed") (h2 : p.status ≠ "in_progress")
    (h3 : p.status ≠ "not_started") :
    (∃ t1, update_todo task tid s = some t1 ∧
      ∀ td ∈ allTodos t1, td.id = tid → td.status = s) ∧
    (∃ t2, update_phase task pid s = some t2 ∧
      ∀ q ∈ t2.phases, q.id = pid → q.status = s) ∧
    phaseContribution w p = 0 := by
  obtain ⟨td, htd⟩ := Option.isSome_iff_exists.mp ht
  obtain ⟨q0, hq0⟩ := Option.isSome_iff_exists.mp hp
  refine ⟨⟨applyAggregator (setTodoStatusEverywhere task tid s) td.phase_id, ?_, ?_⟩,
    ⟨recalculate_task_progress (if s = "completed" then
        cascadeTodosOfPhase (setPhaseStatus task pid s) pid
      else setPhaseStatus task pid s), ?_, ?_⟩, ?_⟩
  · simp [update_todo, htd]
  · intro td' htd' hid
    rw [allTodos_applyAggregator] at htd'
    exact setTodoStatus_forces task tid s td' htd' hid
  · simp [update_phase, hq0]
  · intro q hq hid
    rw [recalculate_phases] at hq
    by_cases hs : s = "completed"
    · rw [if_pos hs] at hq
      obtain ⟨q1, hq1, hidq, hstq⟩ := cascade_preserves_status _ pid q hq
      rw [hstq]
      exact setPhaseStatus_forces task pid s q1 hq1 (hidq ▸ hid)
    · rw [if_neg hs] at hq
      exact setPhaseStatus_forces task pid s q hq hid
  · simp [phaseContribution, h1, h2, h3]

/-- Witness for claim C10 at a concrete task, todo, phase and the status
string weird, together with an out-of-vocabulary phase contributing zero. -/
theorem status_not_validated_witness :
    (∃ t1, update_todo vocabTask 1 "weird" = some t1 ∧
      ∀ td ∈ allTodos t1, td.id = 1 → td.status = "weird") ∧
    (∃ t2, update_phase vocabTask 1 "weird" = some t2 ∧
      ∀ q ∈ t2.phases, q.id = 1 → q.status = "weird") ∧
    phaseContribution 50 weirdPhase = 0 :=
  status_not_validated vocabTask 1 1 "weird" 50 weirdPhase
    (by decide) (by decide) (by decide) (by decide) (by decide)

end StatusTracker
